import Mathlib

/-!
# Market Horizon AI — verification of the frontend data model and services

Shallow embedding of the Vue/TypeScript frontend of the Market Horizon AI
competitive-intelligence platform, together with spec-modelled definitions for
the backend pipeline pieces (cache store, `runAnalysis`) whose code is not part
of the frontend sources.

TypeScript `number` values are embedded as `ℚ`; millisecond clock readings
(`Date.now()`) as `Nat`; optional fields as `Option`; TS string-literal unions
as plain `String` results or small inductive types where the source constrains
them.  HTTP calls issued through the axios client are embedded by threading an
environment `env : path → body → response` and returning, next to the result,
the trace of requests issued, so that "issues exactly one POST" is a statement
about the trace.
-/

/-! ## Data model (src/frontend/src/types/analysis.ts) -/

structure ContentTheme where
  theme : String
  frequency : ℚ
  sentiment : ℚ
  key_phrases : Option (List String) := none
deriving DecidableEq, Repr

structure CompanyPosition where
  x : ℚ
  y : ℚ
  rationale : Option String := none
deriving DecidableEq, Repr

structure ZoneCoordinates where
  x : ℚ
  y : ℚ
deriving DecidableEq, Repr

structure OpportunityZone where
  coordinates : ZoneCoordinates
  description : Option String := none
  rationale : Option String := none
  opportunity_score : Option ℚ := none
deriving DecidableEq, Repr

structure MapDimensions where
  x_axis : String
  y_axis : String
deriving DecidableEq, Repr

structure PositioningMap where
  dimensions : Option MapDimensions := none
  companies : Option (List (String × CompanyPosition)) := none
  opportunity_zones : Option (List OpportunityZone) := none
deriving DecidableEq, Repr

structure ContentRecommendation where
  topic : String
  priority : String
  opportunity_score : ℚ
  search_volume_monthly : Option ℚ := none
  competitor_coverage : Option String := none
  recommended_format : Option String := none
  effort_level : Option String := none
deriving DecidableEq, Repr

structure QualityFlag where
  type : String
  message : String
  agent : String
deriving DecidableEq, Repr

structure AgentError where
  agent : String
  error : String
  timestamp : String
  fallback_used : Bool
deriving DecidableEq, Repr

structure ReportMetadata where
  query : String
  timestamp : String
  total_sources : ℚ
  processing_time_seconds : ℚ
  confidence_score : ℚ
  api_calls : Option ℚ := none
  total_tokens : Option ℚ := none
  errors : Option (List AgentError) := none
deriving DecidableEq, Repr

structure ValidatedInsights where
  competitors : List String
  content_themes : List ContentTheme
  positioning_map : Option PositioningMap := none
  content_recommendations : List ContentRecommendation
  strategic_recommendations : List String
deriving DecidableEq, Repr

structure SourceAttribution where
  total_sources : Option ℚ := none
  source_breakdown : Option (List (String × ℚ)) := none
  date_range : Option String := none
  trends_data_available : Option Bool := none
  discussions_available : Option Bool := none
deriving DecidableEq, Repr

structure AnalysisResult where
  report_metadata : ReportMetadata
  validated_insights : ValidatedInsights
  quality_flags : List QualityFlag
  source_attribution : Option SourceAttribution := none
  query_text : Option String := none
deriving DecidableEq, Repr

/-! ## API request/response types (src/frontend/src/types/api.ts) -/

structure AnalyzeRequest where
  query : String
  parameters : Option (List (String × String)) := none
deriving DecidableEq, Repr

structure ClearCacheRequest where
  cache_type : Option String := none
  query : Option String := none
deriving DecidableEq, Repr

structure QueryHistoryItem where
  id : ℚ
  query : String
  timestamp : String
  confidence_score : Option ℚ
  num_competitors : Option ℚ
deriving DecidableEq, Repr

structure ClearCacheResponse where
  deleted : ℚ
  message : String
deriving DecidableEq, Repr

/-! ## Display helpers of the analysis components

`getScoreWidth` is from the recommendations component; `getSentimentLabel`,
`getSentimentColor` and the sentiment-bar width expression are from
`ThemesList.vue`.  Widths are embedded as the numeric percentage that the
template interpolates into the CSS `width` property. -/

def getScoreWidth (score : ℚ) : ℚ :=
  min (score * 10) 100

def getSentimentColor (sentiment : ℚ) : String :=
  if sentiment > 0.2 then "var(--color-success)"
  else if sentiment < -0.2 then "var(--color-error)"
  else "var(--text-dark-secondary)"

def getSentimentLabel (sentiment : ℚ) : String :=
  if sentiment > 0.2 then "Positive"
  else if sentiment < -0.2 then "Negative"
  else "Neutral"

def sentimentFillWidth (sentiment : ℚ) : ℚ :=
  |sentiment| * 100

/-! ## Chat input submit handler (ChatInput.vue)

`handleSubmit` reads the input, trims it, and bails out when the trimmed query
is falsy (the empty string) or an analysis is already loading; otherwise it
clears the input and dispatches one `analyze` call with the trimmed query.  The
embedding returns the new input value and the list of dispatched queries.
JavaScript's `String.prototype.trim`, which removes leading and trailing
whitespace, is embedded as `jsTrim`. -/

def jsTrim (s : String) : String :=
  String.mk (((s.data.dropWhile Char.isWhitespace).reverse.dropWhile
    Char.isWhitespace).reverse)

def handleSubmit (inputValue : String) (isLoading : Bool) : String × List String :=
  let query := jsTrim inputValue
  if query = "" || isLoading then (inputValue, [])
  else ("", [query])

/-! ## HTTP service layer (src/frontend/src/services)

The axios client is embedded as an environment mapping a path and a request
body to the response body; each service operation returns its result together
with the trace of `(path, body)` pairs POSTed, in order. -/

structure HttpResponse (α : Type) where
  data : α

def apiPost {β α : Type} (env : String → β → HttpResponse α) (path : String)
    (body : β) : HttpResponse α × List (String × β) :=
  (env path body, [(path, body)])

namespace analysisService

def analyze (env : String → AnalyzeRequest → HttpResponse AnalysisResult)
    (request : AnalyzeRequest) : AnalysisResult × List (String × AnalyzeRequest) :=
  let response := apiPost env "/analyze" request
  (response.1.data, response.2)

end analysisService

namespace cacheService

def clear (env : String → ClearCacheRequest → HttpResponse ClearCacheResponse)
    (request : ClearCacheRequest := {}) :
    ClearCacheResponse × List (String × ClearCacheRequest) :=
  let response := apiPost env "/cache/clear" request
  (response.1.data, response.2)

def clearByType (env : String → ClearCacheRequest → HttpResponse ClearCacheResponse)
    (cacheType : String) : ClearCacheResponse × List (String × ClearCacheRequest) :=
  clear env { cache_type := some cacheType }

def clearByQuery (env : String → ClearCacheRequest → HttpResponse ClearCacheResponse)
    (query : String) : ClearCacheResponse × List (String × ClearCacheRequest) :=
  clear env { query := some query }

def clearAll (env : String → ClearCacheRequest → HttpResponse ClearCacheResponse) :
    ClearCacheResponse × List (String × ClearCacheRequest) :=
  clear env {}

end cacheService

/-! ## Cache store semantics

The cache store itself lives in the backend; only its administrative HTTP
pass-throughs are in the frontend sources.  Its behaviour is modelled from the
spec (§3 CacheEntry, §4.1 Cache Store contract). -/

/-- Modelled from the spec: a `CacheEntry` record of the backend Cache Store —
operation-type tag, key, serialized value payload, creation timestamp and TTL
(timestamps in the same clock units). -/
structure CacheEntry where
  op_type : String
  key : String
  value : String
  created_at : Nat
  ttl : Nat
deriving DecidableEq, Repr

/-- Modelled from the spec: an entry is expired once its age reaches its TTL;
an entry with TTL 0 is expired immediately, and an entry whose age exceeds its
TTL is in particular expired. -/
def CacheEntry.isExpired (now : Nat) (e : CacheEntry) : Bool :=
  e.created_at + e.ttl ≤ now

/-- Modelled from the spec: `get(operationType, key)` of the backend Cache
Store returns the stored value only when a matching entry exists and is not
past its TTL; an expired entry is treated as absent. -/
def cacheGet (now : Nat) (opType key : String) (store : List CacheEntry) :
    Option String :=
  match store.find? (fun e => e.op_type == opType && e.key == key) with
  | some e => if e.isExpired now then none else some e.value
  | none => none

/-- Modelled from the spec: `purgeExpired()` removes all entries whose age
exceeds their TTL and keeps the rest. -/
def purgeExpired (now : Nat) (store : List CacheEntry) : List CacheEntry :=
  store.filter (fun e => ! e.isExpired now)

/-- Modelled from the spec: `invalidate(operationType?, key?)` removes the
entries matched by the given selectors; an omitted selector matches every
entry, so omitting both clears the whole store. -/
def invalidate (opType? key? : Option String) (store : List CacheEntry) :
    List CacheEntry :=
  store.filter (fun e =>
    ! ((opType?.all fun t => e.op_type == t) && (key?.all fun k => e.key == k)))

/-! ## Spec-modelled pipeline entry point

The backend pipeline (orchestrator, agents, Quality Validator) is not part of
the frontend sources; only its output types are (`analysis.ts`, which matches
the Python data structures of `quality_agent.py`). -/

/-- Raw (pre-validation) placement of one competitor, as produced by the
Strategy stage before the Quality Validator clamps it. -/
structure RawCompany where
  name : String
  x : ℚ
  y : ℚ
  rationale : Option String := none
deriving DecidableEq, Repr

/-- Raw pipeline outputs handed to the Quality Validator. -/
structure RawPipelineOutput where
  confidence : ℚ
  companies : List RawCompany
  competitors : List String
  themes : List ContentTheme
  recommendations : List ContentRecommendation
  strategic : List String
  flags : List QualityFlag
  total_sources : ℚ
  processing_time : ℚ
  timestamp : String
deriving Repr

def clampQ (lo hi x : ℚ) : ℚ :=
  max lo (min x hi)

/-- Modelled from the spec: the backend `runAnalysis` pipeline entry point
(orchestrator plus Quality Validator, not in the frontend sources).  The
Quality Validator assembles the terminal report and clamps out-of-bounds
scores into their declared bounds — confidence into `[0,1]`, positioning-map
coordinates into `[0,10]` — rather than propagating raw values. -/
def runAnalysis (query : String) (raw : RawPipelineOutput) : AnalysisResult :=
  { report_metadata :=
      { query := query, timestamp := raw.timestamp,
        total_sources := raw.total_sources,
        processing_time_seconds := raw.processing_time,
        confidence_score := clampQ 0 1 raw.confidence },
    validated_insights :=
      { competitors := raw.competitors, content_themes := raw.themes,
        positioning_map := some
          { companies := some (raw.companies.map fun c =>
              (c.name, { x := clampQ 0 10 c.x, y := clampQ 0 10 c.y,
                         rationale := c.rationale })) },
        content_recommendations := raw.recommendations,
        strategic_recommendations := raw.strategic },
    quality_flags := raw.flags,
    query_text := some query }

/-- All `CompanyPosition` values appearing in a report's positioning map. -/
def AnalysisResult.positions (r : AnalysisResult) : List CompanyPosition :=
  match r.validated_insights.positioning_map with
  | none => []
  | some pm => (pm.companies.getD []).map Prod.snd

/-! ## History store (useHistoryStore) -/

namespace useHistoryStore

def addToHistory (item : QueryHistoryItem) (recentQueries : List QueryHistoryItem) :
    List QueryHistoryItem :=
  let unshifted := item :: recentQueries
  if unshifted.length > 10 then unshifted.dropLast else unshifted

end useHistoryStore

/-! ## Analysis store (useAnalysisStore)

The `analyze` action is embedded over an explicit outcome of the underlying
`analysisService.analyze` call (`Except` failure message or report), the
millisecond clock reading `now`, the store state, and the history store's
recent-queries list which the success path extends via `addToHistory`. -/

structure ChatMessage where
  id : String
  role : String
  content : String
  timestamp : Nat
  result : Option AnalysisResult := none
  isLoading : Option Bool := none
deriving DecidableEq, Repr

structure AnalysisStoreState where
  isLoading : Bool
  currentQuery : Option String
  currentResult : Option AnalysisResult
  error : Option String
  messages : List ChatMessage
deriving DecidableEq, Repr

namespace useAnalysisStore

def analyze (svcResult : Except String AnalysisResult) (now : Nat) (query : String)
    (s : AnalysisStoreState) (history : List QueryHistoryItem) :
    AnalysisStoreState × List QueryHistoryItem :=
  if s.isLoading then (s, history)
  else
    let userMessage : ChatMessage :=
      { id := "msg-" ++ toString now, role := "user", content := query,
        timestamp := now }
    let assistantMessage : ChatMessage :=
      { id := "msg-" ++ toString now ++ "-assistant", role := "assistant",
        content := "", timestamp := now, isLoading := some true }
    let s1 : AnalysisStoreState :=
      { s with
          isLoading := true, currentQuery := some query, error := none,
          messages := s.messages ++ [userMessage, assistantMessage] }
    match svcResult with
    | .ok result =>
        let lastIndex := s1.messages.length - 1
        let s2 : AnalysisStoreState :=
          { s1 with
              currentResult := some result,
              messages := s1.messages.set lastIndex
                { assistantMessage with
                    content := "Analysis complete for \"" ++ query ++ "\"",
                    result := some result, isLoading := some false } }
        let historyItem : QueryHistoryItem :=
          { id := (now : ℚ), query := query,
            timestamp := result.report_metadata.timestamp,
            confidence_score := some result.report_metadata.confidence_score,
            num_competitors :=
              some (result.validated_insights.competitors.length : ℚ) }
        ({ s2 with isLoading := false },
         useHistoryStore.addToHistory historyItem history)
    | .error msg =>
        let lastIndex := s1.messages.length - 1
        let s2 : AnalysisStoreState :=
          { s1 with
              error := some msg,
              messages := s1.messages.set lastIndex
                { assistantMessage with
                    content := "Analysis failed: " ++ msg,
                    isLoading := some false } }
        ({ s2 with isLoading := false }, history)

end useAnalysisStore

/-! ## Components of the terminal report

`specComponents` projects an `AnalysisResult` onto the seven components the
spec lists for the terminal report; `rebuildReport` reassembles a report from
those components plus the remaining two optional fields of the source type. -/

def specComponents (r : AnalysisResult) :
    ReportMetadata × List String × List ContentTheme × Option PositioningMap ×
      List ContentRecommendation × List String × List QualityFlag :=
  (r.report_metadata, r.validated_insights.competitors,
   r.validated_insights.content_themes, r.validated_insights.positioning_map,
   r.validated_insights.content_recommendations,
   r.validated_insights.strategic_recommendations, r.quality_flags)

def rebuildReport
    (c : ReportMetadata × List String × List ContentTheme × Option PositioningMap ×
      List ContentRecommendation × List String × List QualityFlag)
    (attribution : Option SourceAttribution) (queryText : Option String) :
    AnalysisResult :=
  { report_metadata := c.1,
    validated_insights :=
      { competitors := c.2.1, content_themes := c.2.2.1,
        positioning_map := c.2.2.2.1,
        content_recommendations := c.2.2.2.2.1,
        strategic_recommendations := c.2.2.2.2.2.1 },
    quality_flags := c.2.2.2.2.2.2,
    source_attribution := attribution, query_text := queryText }

/-! # Theorems -/

/-- C7: the opportunity-score bar width rendered for a recommendation with
score `s` is `min (10·s) 100` percent, hence never above 100% even for scores
outside the declared `[1,10]` bound. -/
theorem getScoreWidth_clamped (s : ℚ) :
    getScoreWidth s = min (10 * s) 100 ∧ getScoreWidth s ≤ 100 := by
  constructor
  · simp [getScoreWidth, mul_comm]
  · exact min_le_right _ _

/-- C8: for a sentiment score `s ∈ [-1,1]` the theme label is `Positive`
exactly when `s > 0.2`, `Negative` exactly when `s < -0.2`, `Neutral`
otherwise, and the sentiment bar is `|s|·100` percent wide. -/
theorem sentiment_label_spec (s : ℚ) (hlo : -1 ≤ s) (hhi : s ≤ 1) :
    (getSentimentLabel s = "Positive" ↔ s > 0.2) ∧
    (getSentimentLabel s = "Negative" ↔ s < -0.2) ∧
    (getSentimentLabel s = "Neutral" ↔ (-0.2 ≤ s ∧ s ≤ 0.2)) ∧
    sentimentFillWidth s = |s| * 100 := by
  refine ⟨?_, ?_, ?_, rfl⟩ <;>
    · unfold getSentimentLabel
      split_ifs with h1 h2 <;> simp_all <;> linarith

/-- Witness for C8 at the concrete sentiment score `1/2`. -/
theorem sentiment_label_spec_witness :
    (getSentimentLabel (1/2) = "Positive" ↔ (1/2 : ℚ) > 0.2) ∧
    (getSentimentLabel (1/2) = "Negative" ↔ (1/2 : ℚ) < -0.2) ∧
    (getSentimentLabel (1/2) = "Neutral" ↔ (-0.2 ≤ (1/2 : ℚ) ∧ (1/2 : ℚ) ≤ 0.2)) ∧
    sentimentFillWidth (1/2) = |(1/2 : ℚ)| * 100 :=
  sentiment_label_spec (1/2) (by norm_num) (by norm_num)

/-- C10: the submit handler dispatches nothing when the trimmed input is empty
or an analysis is loading, and otherwise dispatches exactly one analysis whose
query is the trimmed input. -/
theorem handleSubmit_spec (input : String) (loading : Bool) :
    (jsTrim input = "" ∨ loading = true → (handleSubmit input loading).2 = []) ∧
    (jsTrim input ≠ "" → loading = false →
      (handleSubmit input loading).2 = [jsTrim input]) := by
  constructor
  · intro h
    rcases h with h | h <;> simp [handleSubmit, h]
  · intro h hl
    simp [handleSubmit, h, hl]

/-- Witness for C10: the input `"  hello  "` with no analysis loading
dispatches exactly the trimmed query `"hello"`. -/
theorem handleSubmit_spec_witness :
    (handleSubmit "  hello  " false).2 = [jsTrim "  hello  "] :=
  (handleSubmit_spec "  hello  " false).2 (by decide) rfl

/-- C2: `analysisService.analyze` issues exactly one POST, to `/analyze`,
carrying the request with the query, and returns the response body unchanged
as the `AnalysisResult`. -/
theorem analysisService_analyze_spec
    (env : String → AnalyzeRequest → HttpResponse AnalysisResult)
    (request : AnalyzeRequest) :
    (analysisService.analyze env request).2 = [("/analyze", request)] ∧
    (analysisService.analyze env request).1 = (env "/analyze" request).data :=
  ⟨rfl, rfl⟩

/-- C6: each cache-clear convenience operation equals the general `clear` with
the corresponding selector, `clearAll` equals `clear` with both selectors
omitted, and (in the spec-modelled store semantics) clearing with both
selectors omitted removes every entry. -/
theorem cacheService_clear_equivalences
    (env : String → ClearCacheRequest → HttpResponse ClearCacheResponse)
    (t q : String) (store : List CacheEntry) :
    cacheService.clearByType env t = cacheService.clear env { cache_type := some t } ∧
    cacheService.clearByQuery env q = cacheService.clear env { query := some q } ∧
    cacheService.clearAll env = cacheService.clear env {} ∧
    invalidate none none store = [] := by
  refine ⟨rfl, rfl, rfl, ?_⟩
  simp [invalidate]

/-- C9: starting from a recent-queries list with at most 10 entries,
`addToHistory` keeps the list at no more than 10 entries, puts the new item at
the front, and when the list was already full drops exactly the oldest (last)
entry. -/
theorem addToHistory_spec (item : QueryHistoryItem) (l : List QueryHistoryItem)
    (h : l.length ≤ 10) :
    (useHistoryStore.addToHistory item l).length ≤ 10 ∧
    (useHistoryStore.addToHistory item l).head? = some item ∧
    (l.length = 10 → useHistoryStore.addToHistory item l = item :: l.dropLast) := by
  unfold useHistoryStore.addToHistory
  by_cases hfull : (item :: l).length > 10
  · have hl : l.length = 10 := by simp at hfull; omega
    have hne : l ≠ [] := by
      intro e
      rw [e] at hl
      simp at hl
    rw [if_pos hfull, List.dropLast_cons_of_ne_nil hne]
    refine ⟨?_, rfl, fun _ => rfl⟩
    simp [hl]
  · rw [if_neg hfull]
    simp only [List.length_cons, gt_iff_lt, not_lt] at hfull
    exact ⟨by simp; omega, rfl, fun heq => by omega⟩

/-- A concrete history item used to witness C9. -/
def sampleHistoryItem : QueryHistoryItem :=
  { id := 1, query := "crm tools", timestamp := "2024-01-01T00:00:00Z",
    confidence_score := some (9/10), num_competitors := some 2 }

/-- Witness for C9 at a concrete item and the empty starting list. -/
theorem addToHistory_spec_witness :
    (useHistoryStore.addToHistory sampleHistoryItem []).length ≤ 10 ∧
    (useHistoryStore.addToHistory sampleHistoryItem []).head? = some sampleHistoryItem ∧
    (([] : List QueryHistoryItem).length = 10 →
      useHistoryStore.addToHistory sampleHistoryItem [] =
        sampleHistoryItem :: ([] : List QueryHistoryItem).dropLast) :=
  addToHistory_spec sampleHistoryItem [] (by simp)

theorem le_clampQ {lo hi : ℚ} (x : ℚ) : lo ≤ clampQ lo hi x :=
  le_max_left _ _

theorem clampQ_le {lo hi : ℚ} (h : lo ≤ hi) (x : ℚ) : clampQ lo hi x ≤ hi :=
  max_le h (min_le_right _ _)

/-- C1: every report produced by `runAnalysis` has its confidence score in
`[0,1]` and every company position of its positioning map inside `[0,10]²`
(out-of-bounds raw values are clamped, not propagated). -/
theorem runAnalysis_bounds (query : String) (raw : RawPipelineOutput) :
    (0 ≤ (runAnalysis query raw).report_metadata.confidence_score ∧
      (runAnalysis query raw).report_metadata.confidence_score ≤ 1) ∧
    ((runAnalysis query raw).positions.all fun p =>
      decide (0 ≤ p.x ∧ p.x ≤ 10 ∧ 0 ≤ p.y ∧ p.y ≤ 10)) = true := by
  refine ⟨⟨le_clampQ _, clampQ_le (by norm_num) _⟩, ?_⟩
  simp only [runAnalysis, AnalysisResult.positions, Option.getD_some,
    List.map_map, List.all_eq_true, List.mem_map, Function.comp]
  rintro p ⟨c, _, rfl⟩
  simp only [decide_eq_true_eq]
  exact ⟨le_clampQ _, clampQ_le (by norm_num) _, le_clampQ _,
    clampQ_le (by norm_num) _⟩

/-- C3: in the spec-modelled cache store, a stored entry whose age exceeds its
TTL is never returned as a hit by `get` (given one entry per key, as the store
is keyed by (operation-type, key)), and `purgeExpired` removes every such
expired entry. -/
theorem cache_ttl_expiry (now : Nat) (opType key : String)
    (store : List CacheEntry)
    (huniq : store.Pairwise fun a b => (a.op_type, a.key) ≠ (b.op_type, b.key)) :
    (∀ e ∈ store, e.op_type = opType → e.key = key →
      e.ttl < now - e.created_at → cacheGet now opType key store = none) ∧
    (∀ e ∈ store, e.ttl < now - e.created_at → e ∉ purgeExpired now store) := by
  constructor
  · intro e hmem hop hkey hage
    unfold cacheGet
    cases hfind : store.find? (fun f => f.op_type == opType && f.key == key) with
    | none => rfl
    | some f =>
        have hfmem : f ∈ store := List.mem_of_find?_eq_some hfind
        have hfp := List.find?_some hfind
        simp only [Bool.and_eq_true, beq_iff_eq] at hfp
        have hfe : f = e := by
          by_contra hne
          have hsym : Symmetric fun a b : CacheEntry =>
              (a.op_type, a.key) ≠ (b.op_type, b.key) := fun a b hab => hab.symm
          have := huniq.forall hsym hfmem hmem hne
          exact this (by rw [hfp.1, hfp.2, hop, hkey])
        subst hfe
        have hexp : f.isExpired now = true := by
          unfold CacheEntry.isExpired
          simp only [decide_eq_true_eq]
          omega
        simp [hexp]
  · intro e hmem hage hpurged
    unfold purgeExpired at hpurged
    have := (List.mem_filter.mp hpurged).2
    unfold CacheEntry.isExpired at this
    simp only [Bool.not_eq_true', decide_eq_false_iff_not, not_le] at this
    omega

/-- A concrete expired cache entry used to witness C3. -/
def expiredSampleEntry : CacheEntry :=
  { op_type := "web-search", key := "crm tools", value := "cached payload",
    created_at := 0, ttl := 5 }

/-- Witness for C3: at time 10 the entry created at 0 with TTL 5 has age
exceeding its TTL; `get` misses and `purgeExpired` drops it. -/
theorem cache_ttl_expiry_witness :
    cacheGet 10 "web-search" "crm tools" [expiredSampleEntry] = none ∧
    expiredSampleEntry ∉ purgeExpired 10 [expiredSampleEntry] := by
  have h := cache_ttl_expiry 10 "web-search" "crm tools" [expiredSampleEntry]
    (List.pairwise_singleton _ _)
  exact ⟨h.1 expiredSampleEntry (List.mem_singleton.mpr rfl) rfl rfl (by decide),
    h.2 expiredSampleEntry (List.mem_singleton.mpr rfl) (by decide)⟩

/-- Concrete report metadata shared by the two C4 counterexample reports. -/
def sampleMetadata : ReportMetadata :=
  { query := "crm tools", timestamp := "2024-01-01T00:00:00Z", total_sources := 3,
    processing_time_seconds := 12, confidence_score := 9/10 }

/-- Concrete report with `query_text` absent. -/
def reportWithoutQueryText : AnalysisResult :=
  { report_metadata := sampleMetadata,
    validated_insights :=
      { competitors := ["Salesforce"], content_themes := [],
        content_recommendations := [], strategic_recommendations := [] },
    quality_flags := [] }

/-- Concrete report identical except for `query_text`. -/
def reportWithQueryText : AnalysisResult :=
  { reportWithoutQueryText with query_text := some "crm tools" }

/-- C4 counterexample: two distinct `AnalysisResult` values agree on all seven
components the claim lists, so the terminal report does not aggregate exactly
those components — it also carries `source_attribution` and `query_text`. -/
theorem analysisReport_components_counterexample :
    specComponents reportWithoutQueryText = specComponents reportWithQueryText ∧
    reportWithoutQueryText ≠ reportWithQueryText := by
  refine ⟨rfl, ?_⟩
  intro h
  have := congrArg AnalysisResult.query_text h
  simp [reportWithoutQueryText, reportWithQueryText] at this

/-- C4 amended: the terminal `AnalysisResult` aggregates exactly the seven
listed components together with an optional source-attribution summary and an
optional `query_text` string — splitting into these and reassembling is the
identity in both directions. -/
theorem analysisReport_components_amended (r : AnalysisResult) :
    rebuildReport (specComponents r) r.source_attribution r.query_text = r ∧
    ∀ c attribution queryText,
      specComponents (rebuildReport c attribution queryText) = c ∧
      (rebuildReport c attribution queryText).source_attribution = attribution ∧
      (rebuildReport c attribution queryText).query_text = queryText :=
  ⟨rfl, fun _ _ _ => ⟨rfl, rfl, rfl⟩⟩

/-- C5: when the underlying analysis call rejects, the store after `analyze`
keeps `currentResult` exactly as it was (no partial report is observed),
records the failure message in `error`, and ends with `isLoading` false. -/
theorem analyze_failure_state (msg : String) (now : Nat) (query : String)
    (s : AnalysisStoreState) (history : List QueryHistoryItem)
    (hidle : s.isLoading = false) :
    (useAnalysisStore.analyze (.error msg) now query s history).1.currentResult =
      s.currentResult ∧
    (useAnalysisStore.analyze (.error msg) now query s history).1.error = some msg ∧
    (useAnalysisStore.analyze (.error msg) now query s history).1.isLoading = false := by
  simp [useAnalysisStore.analyze, hidle]

/-- A concrete idle analysis-store state used to witness C5. -/
def idleStoreState : AnalysisStoreState :=
  { isLoading := false, currentQuery := none, currentResult := none,
    error := none, messages := [] }

/-- Witness for C5 at a concrete failing call on the idle store. -/
theorem analyze_failure_state_witness :
    (useAnalysisStore.analyze (.error "network down") 7 "crm tools"
      idleStoreState []).1.currentResult = idleStoreState.currentResult ∧
    (useAnalysisStore.analyze (.error "network down") 7 "crm tools"
      idleStoreState []).1.error = some "network down" ∧
    (useAnalysisStore.analyze (.error "network down") 7 "crm tools"
      idleStoreState []).1.isLoading = false :=
  analyze_failure_state "network down" 7 "crm tools" idleStoreState [] rfl
